import Mathlib

/-!
Verification of the batching/sync core of the browserbud Chrome extension
(`src/batch-processor.js`, class `BatchProcessor`).

The class is embedded shallowly: its mutable instance fields become the
record `BP`; each method becomes a function `BP → ... → BP` (async methods
are split at their suspension points into a start step and an end step so
that interleavings observable in the JavaScript event loop can be stated).
JavaScript `Date.now()+Math.random()` identifier generation is modelled by
a fresh counter `ctr` carried in the state: each generated identifier is
`NId.gen ctr` and the counter is bumped, so generated identifiers are
pairwise distinct and distinct from every caller-supplied (`NId.ext`)
identifier, which is the property the string scheme `note_<ts>_<rand>`
is relied upon for.
-/

namespace BrowserBud

/-- A note identifier. `ext n` stands for an arbitrary caller-supplied id
(e.g. the `local_...` ids created by the background script), `gen k` for the
`note_<Date.now()>_<random>` ids generated inside `BatchProcessor`
(`addNote` line 89, `saveNoteToLocalStorage` line 360, bake ids line 257),
modelled as draws from the fresh counter. -/
inductive NId where
  | ext : Nat → NId
  | gen : Nat → NId
  deriving DecidableEq, Repr

/-- The argument object of `addNote`: `note.id` and `note.metadata?.local_id`
may each be absent; `content` is the text body as a list of UTF-16 code
units (what `charCodeAt` iterates over). -/
structure NoteInput where
  id : Option NId
  localId : Option NId
  content : List Nat
  deriving DecidableEq, Repr

/-- A note held in `pendingNotes`. Its `id` is always present: `addNote`
assigns one on entry and `saveNoteToLocalStorage` overwrites it with a
fresh storage id before the call returns. `localId` is
`note.metadata?.local_id`, never touched by the processor. -/
structure Note where
  id : NId
  localId : Option NId
  content : List Nat
  deriving DecidableEq, Repr

/-- JavaScript `ToInt32`: reduce an integer to the range `[-2^31, 2^31)`. -/
def toInt32 (z : Int) : Int :=
  ((z + 2 ^ 31) % 2 ^ 32) - 2 ^ 31

/-- One loop iteration of `hashContent` (batch-processor.js lines 131-135):
`hash = ((hash << 5) - hash) + char; hash = hash & hash`. `hash << 5` is the
32-bit shift `toInt32 (hash * 32)`; the subtraction and addition are exact;
`hash & hash` truncates the result back to 32 bits. -/
def hashStep (h : Int) (c : Nat) : Int :=
  toInt32 (toInt32 (h * 32) - h + (c : Int))

/-- `BatchProcessor.hashContent` (lines 128-137): the rolling 32-bit hash of
the content, starting from 0. The JavaScript method returns
`hash.toString()`; since `toString` is injective on integers, equality of the
returned strings is equality of these integers, so the integer is the
faithful model of the fingerprint. -/
def hashContent (content : List Nat) : Int :=
  content.foldl hashStep 0

/-- Configuration constant `this.maxRetries = 3` (line 11). -/
def maxRetries : Nat := 3

/-- Configuration constant `this.retryDelay = 1000` ms (line 12). -/
def retryDelay : Nat := 1000

/-- Configuration constant `this.bakeThrottleTime = 10000` ms (line 29). -/
def bakeThrottleTime : Nat := 10000

/-- Default configuration constant `this.maxBatchSize = 10` (line 9,
and the explicit `maxBatchSize: 10` passed by `initializeBatchProcessor`). -/
def maxBatchSize : Nat := 10

/-- The mutable instance state of a `BatchProcessor` (constructor,
lines 5-32). Timer handles (`batchTimer`, `connectivityTimer`,
`cleanupTimer`) and the badge are external effects and carry no data the
claims depend on, so they are not part of the record. `inflight` models the
local `notesToProcess = [...this.pendingNotes]` snapshot of the in-flight
`processBatch` call (line 157), which in the JavaScript lives in the async
frame between the suspension at `await sendBatchWithRetry` and the
resumption; timestamps are modelled as naturals. `ctr` is the fresh-id
source described in the module docstring. -/
structure BP where
  pendingNotes : List Note
  processedNoteIds : List NId
  isProcessing : Bool
  serverConnected : Bool
  lastBatchTime : Option Nat
  lastHealthCheck : Option Nat
  lastBakeTime : Option Nat
  activeBakeRequests : List NId
  inflight : Option (List Note)
  ctr : Nat
  deriving DecidableEq, Repr

/-- The state of a freshly constructed `BatchProcessor` (constructor,
lines 5-32): empty queue, empty seen-set, no flush in progress, no
timestamps, no active bakes. -/
def initBP : BP :=
  { pendingNotes := []
    processedNoteIds := []
    isProcessing := false
    serverConnected := false
    lastBatchTime := none
    lastHealthCheck := none
    lastBakeTime := none
    activeBakeRequests := []
    inflight := none
    ctr := 0 }

/-- `const noteId = note.id || note.metadata?.local_id || note_<fresh>`
(line 89). Returns the chosen id together with the counter value after the
possible generation. -/
def noteIdOf (s : BP) (n : NoteInput) : NId × Nat :=
  match n.id with
  | some i => (i, s.ctr)
  | none =>
    match n.localId with
    | some i => (i, s.ctr)
    | none => (NId.gen s.ctr, s.ctr + 1)

/-- Result of the synchronous prefix of `processBatch` (lines 143-170):
either one of the two guard returns, or the flush started and
`sendBatchWithRetry` was invoked (the only branch issuing a transmission). -/
inductive StartRes where
  | noPending : StartRes
  | busy : StartRes
  | started : StartRes
  deriving DecidableEq, Repr

/-- Whether a `StartRes` corresponds to the branch of `processBatch` that
reaches `sendBatchWithRetry`, i.e. initiates a network transmission. -/
def initiatesSend : StartRes → Bool
  | .started => true
  | _ => false

/-- The synchronous prefix of `processBatch` (lines 143-170): return if the
queue is empty (line 144) or a flush is already in progress (line 149);
otherwise set `isProcessing := true`, snapshot the queue into the local
`notesToProcess` (line 157, modelled by `inflight`), build the payload and
call `sendBatchWithRetry`, suspending at its first `await`. -/
def flushStart (s : BP) : BP × StartRes :=
  if s.pendingNotes.length = 0 then (s, .noPending)
  else if s.isProcessing then (s, .busy)
  else ({ s with isProcessing := true, inflight := some s.pendingNotes }, .started)

/-- The notes serialized by `JSON.stringify(batchData)` at any attempt of
the in-flight `sendBatchWithRetry`: `batchPayload.notes` (line 163) stores a
reference to the live `this.pendingNotes` array, and `addNote` pushes into
that same array, so each attempt serializes the queue as it is at that
moment — not the `notesToProcess` snapshot. -/
def transmittedNotes (s : BP) : List Note :=
  s.pendingNotes

/-- The match used on success to remove processed notes (lines 177-182):
`processed.id === note.id || processed.metadata?.local_id ===
note.metadata?.local_id`. Note that two absent `local_id`s compare equal
(`undefined === undefined`), which `Option`'s `none == none` mirrors. -/
def noteMatches (p note : Note) : Bool :=
  p.id == note.id || p.localId == note.localId

/-- The resumption of `processBatch` after `sendBatchWithRetry` returns
(lines 172-205), with `success` the `response.success` field. On success:
remove from the live queue every note matching a snapshotted note
(lines 177-182), set `lastBatchTime` (line 183) and
`serverConnected := true` (line 184). On failure (the `catch` block,
lines 193-202): set `serverConnected := false`, leave the queue untouched.
Either way the `finally` block (lines 203-205) clears `isProcessing`. -/
def flushEnd (s : BP) (success : Bool) (now : Nat) : BP :=
  match s.inflight with
  | none => s
  | some snap =>
    if success then
      { s with
        pendingNotes := s.pendingNotes.filter (fun note => !(snap.any (fun p => noteMatches p note)))
        lastBatchTime := some now
        serverConnected := true
        isProcessing := false
        inflight := none }
    else
      { s with serverConnected := false, isProcessing := false, inflight := none }

/-- The accepting path of `addNote` (lines 106-114): record the derived id
in the seen-set, append the note to the queue with the fresh storage id
that `saveNoteToLocalStorage` (lines 360-361) writes over `note.id` before
`addNote` returns. -/
def acceptNote (s : BP) (n : NoteInput) : BP :=
  { s with
    ctr := (noteIdOf s n).2 + 1
    processedNoteIds := (noteIdOf s n).1 :: s.processedNoteIds
    pendingNotes := s.pendingNotes ++ [⟨NId.gen (noteIdOf s n).2, n.localId, n.content⟩] }

/-- The size-triggered early flush at the end of `addNote` (lines 117-120):
`processBatch()` is invoked without `await` when the queue has reached
`maxBatchSize`; its synchronous prefix is `flushStart`. -/
def triggerFlush (s : BP) : BP :=
  if maxBatchSize ≤ s.pendingNotes.length then (flushStart s).1 else s

/-- `BatchProcessor.addNote` (lines 87-126). Derive the id (line 89; the
`note.id = noteId` write mutates the argument object); reject if the id is
in the seen-set (lines 93-96); reject if a pending note has the same content
hash (lines 99-105); otherwise `acceptNote`: record the id (line 108), push
the note (line 111) and persist it via `saveNoteToLocalStorage` (line 114),
which overwrites `note.id` with a fresh storage id (lines 360-361) — the
queue holds that mutated object, so the queued note carries the storage id.
Finally `triggerFlush` runs the size-triggered `processBatch` prefix. The
rejecting branches advance only `ctr` (id generation consumes the
`Date.now()/Math.random()` source but touches no instance field). -/
def addNote (s : BP) (n : NoteInput) : BP :=
  if s.processedNoteIds.contains (noteIdOf s n).1 then { s with ctr := (noteIdOf s n).2 }
  else if s.pendingNotes.any (fun m => hashContent m.content == hashContent n.content) then
    { s with ctr := (noteIdOf s n).2 }
  else
    triggerFlush (acceptNote s n)

/-- Outcome of one `fetch` to `POST /notes/batch` as observed by
`sendBatchWithRetry`: a 2xx response (`response.ok`) with data, a non-2xx
status (which line 221 turns into a thrown error), a transport error, or the
30-second `AbortSignal.timeout` firing. All non-`ok` outcomes land in the
same `catch` block. -/
inductive HttpOutcome where
  | ok : Nat → HttpOutcome
  | httpError : Nat → HttpOutcome
  | transportError : HttpOutcome
  | timeout : HttpOutcome
  deriving DecidableEq, Repr

/-- `response.ok`: whether the attempt succeeded. -/
def isOk : HttpOutcome → Bool
  | .ok _ => true
  | _ => false

/-- The value `sendBatchWithRetry` resolves to, enriched with the
observable effort: `attempts` counts the `fetch` calls issued and `delays`
lists the waits (`setTimeout(resolve, this.retryDelay)`) inserted between
consecutive attempts. The JavaScript resolves to `{success, ...}` rather
than rejecting. -/
structure SendResult where
  success : Bool
  attempts : Nat
  delays : List Nat
  deriving DecidableEq, Repr

/-- Recursion worker for `sendBatchWithRetry`. The JavaScript recursion
(line 230-233) recurses on `attempt + 1` while `attempt < maxRetries`; the
extra argument `left` is `maxRetries - attempt`, which makes that recursion
structural: `left = 0` exactly when `attempt < maxRetries` fails. The
outcome of the `fetch` at attempt `k` is `oracle k`. -/
def sendRetryGo (oracle : Nat → HttpOutcome) (attempt : Nat) : Nat → SendResult
  | 0 =>
    if isOk (oracle attempt) then { success := true, attempts := 1, delays := [] }
    else { success := false, attempts := 1, delays := [] }
  | left + 1 =>
    if isOk (oracle attempt) then { success := true, attempts := 1, delays := [] }
    else
      let r := sendRetryGo oracle (attempt + 1) left
      { success := r.success, attempts := r.attempts + 1, delays := retryDelay :: r.delays }

/-- `BatchProcessor.sendBatchWithRetry` (lines 208-238): try the `fetch`;
on any failure (transport error, timeout, non-2xx of any status class) wait
the fixed `retryDelay` and recurse with `attempt + 1` while
`attempt < maxRetries`, otherwise resolve to `{success: false, error}`. -/
def sendBatchWithRetry (oracle : Nat → HttpOutcome) (attempt : Nat) : SendResult :=
  sendRetryGo oracle attempt (maxRetries - attempt)

/-- The serialized (no interleaving) execution of one `processBatch` call:
the synchronous prefix followed, if the flush started, by the resumption
with outcome `success`. Used to model the `await this.processBatch()`
inside `handleBakeRequest` (line 278). -/
def processBatchRun (s : BP) (success : Bool) (now : Nat) : BP :=
  match flushStart s with
  | (s1, .started) => flushEnd s1 success now
  | (s1, _) => s1

/-- Result of the synchronous prefix of `handleBakeRequest`
(lines 244-279): the throttle rejection carrying the whole-second wait
(lines 248-255), the already-in-progress rejection (lines 259-265), or the
bake was marked active under the given id and proceeds toward the `fetch`. -/
inductive BakeStartRes where
  | throttled : Nat → BakeStartRes
  | alreadyActive : BakeStartRes
  | proceeded : NId → BakeStartRes
  deriving DecidableEq, Repr

/-- The guard-and-mark step of `handleBakeRequest` past the throttle:
generate a fresh `bakeId` (line 257); if that id is already in
`activeBakeRequests`, reject without a network call (lines 259-265);
otherwise record it as active (lines 270-273) and proceed (first draining
pending notes, then issuing the bake `fetch`). -/
def bakeStartGuard (s : BP) : BP × BakeStartRes :=
  let bakeId := NId.gen s.ctr
  if s.activeBakeRequests.contains bakeId then (s, .alreadyActive)
  else
    ({ s with ctr := s.ctr + 1, activeBakeRequests := bakeId :: s.activeBakeRequests },
      .proceeded bakeId)

/-- The throttle check of `handleBakeRequest` (lines 247-255):
`if (this.lastBakeTime && (now - this.lastBakeTime) < this.bakeThrottleTime)`
rejects with the remaining whole seconds; otherwise control falls through to
`bakeStartGuard`. -/
def bakeStart (s : BP) (now : Nat) : BP × BakeStartRes :=
  match s.lastBakeTime with
  | some t =>
    if now - t < bakeThrottleTime then
      (s, .throttled ((bakeThrottleTime - (now - t) + 999) / 1000))
    else bakeStartGuard s
  | none => bakeStartGuard s

/-- The resumption of `handleBakeRequest` after the bake `fetch` settles
(lines 300-321): on a 2xx response record `lastBakeTime := now` (line 308,
`now` is the value captured at entry); in every case the `finally` block
removes the bake id from `activeBakeRequests` (line 320). -/
def bakeFinish (s : BP) (now : Nat) (bakeId : NId) (ok : Bool) : BP :=
  let s1 := if ok then { s with lastBakeTime := some now } else s
  { s1 with activeBakeRequests := s1.activeBakeRequests.filter (fun i => i != bakeId) }

/-- The value `handleBakeRequest` resolves to. -/
inductive BakeRes where
  | throttledErr : Nat → BakeRes
  | inProgressErr : BakeRes
  | succeeded : BakeRes
  | failed : BakeRes
  deriving DecidableEq, Repr

/-- The whole of `handleBakeRequest` (lines 244-322) run serially (no
interleaved calls): the synchronous prefix, then — when it proceeds — the
inner `await this.processBatch()` if the queue is non-empty (lines 276-279,
with outcome `flushSuccess`), then the bake `fetch` (outcome `bakeOk`) and
the resumption. The returned `Nat` counts the `fetch` calls made to the
`/bake` endpoint by this call. -/
def handleBakeRequest (s : BP) (now : Nat) (flushSuccess : Bool) (bakeOk : Bool) :
    BP × BakeRes × Nat :=
  match bakeStart s now with
  | (s1, .throttled t) => (s1, .throttledErr t, 0)
  | (s1, .alreadyActive) => (s1, .inProgressErr, 0)
  | (s1, .proceeded bakeId) =>
    let s2 := if s1.pendingNotes.length = 0 then s1 else processBatchRun s1 flushSuccess now
    if bakeOk then (bakeFinish s2 now bakeId true, .succeeded, 1)
    else (bakeFinish s2 now bakeId false, .failed, 1)

/-- `BatchProcessor.getStatus` (lines 328-340), restricted to the fields
the claims mention. -/
structure Status where
  pendingCount : Nat
  lastBatchTime : Option Nat
  serverConnected : Bool
  isProcessing : Bool
  deriving DecidableEq, Repr

/-- `BatchProcessor.getStatus` (lines 328-340). -/
def getStatus (s : BP) : Status :=
  { pendingCount := s.pendingNotes.length
    lastBatchTime := s.lastBatchTime
    serverConnected := s.serverConnected
    isProcessing := s.isProcessing }

/-- `BatchProcessor.start` (lines 37-59). Its body clears and re-arms
timers, fires `checkConnectivity()` (async) and schedules a delayed
`processBatch` — it contains no read of `chrome.storage.local` and no write
to any of the modelled fields, so its synchronous effect on the engine
state is the identity. The durable store (the `note_*` records of
`chrome.storage.local`, modelled as an association list) is passed
explicitly to make visible that recovery would need it; the source ignores
it. -/
def start (s : BP) (_store : List (NId × Note)) : BP :=
  s

/-- `initializeBatchProcessor` (src/unnamed/part_002, lines 369-388):
construct a fresh `BatchProcessor` and call `start()` on it. The durable
store present at startup is passed through to `start`. -/
def initBatchProcessor (store : List (NId × Note)) : BP :=
  start initBP store

/-- `BatchProcessor.reset` (lines 528-534): empty the queue, null
`lastBatchTime`, clear `isProcessing`, clear the badge. No other field is
touched. -/
def reset (s : BP) : BP :=
  { s with pendingNotes := [], lastBatchTime := none, isProcessing := false }

/-- The content fingerprints of a list of notes, in queue order. -/
def fingerprints (l : List Note) : List Int :=
  l.map (fun m => hashContent m.content)

/-- A sample note for witnesses and counterexamples. -/
def w1 : Note :=
  ⟨NId.gen 0, none, [1]⟩

/-- A state with one pending note, no flush in progress. -/
def oneNoteState : BP :=
  { initBP with pendingNotes := [w1] }

/-- A state with one pending note whose flush is in flight. -/
def inflightState : BP :=
  { initBP with pendingNotes := [w1], inflight := some [w1], isProcessing := true }

/-- Mid-flight enqueue scenario, step 1: enqueue a first note. -/
def midFlightAdd1 : BP :=
  addNote initBP ⟨none, some (NId.ext 10), [1]⟩

/-- Mid-flight enqueue scenario, step 2: the periodic flush starts. -/
def midFlightFlush : BP :=
  (flushStart midFlightAdd1).1

/-- Mid-flight enqueue scenario, step 3: a second note is enqueued while
the flush (and its retries) is still in flight. -/
def midFlightAdd2 : BP :=
  addNote midFlightFlush ⟨none, some (NId.ext 11), [2]⟩

/-- The first note as it sits in the queue (storage id `gen 0`). -/
def noteA : Note :=
  ⟨NId.gen 0, some (NId.ext 10), [1]⟩

/-- The second, mid-flight note as it sits in the queue (storage id `gen 1`). -/
def noteB : Note :=
  ⟨NId.gen 1, some (NId.ext 11), [2]⟩

/-- A state in which earlier activity left both untouched timestamps set. -/
def staleState : BP :=
  { initBP with lastBakeTime := some 5, lastHealthCheck := some 7 }

/-- A durable store holding three pending notes, for the recovery scenario. -/
def sampleStore : List (NId × Note) :=
  [(NId.gen 0, ⟨NId.gen 0, none, [1]⟩),
   (NId.gen 1, ⟨NId.gen 1, none, [2]⟩),
   (NId.gen 2, ⟨NId.gen 2, none, [3]⟩)]

/-! ## Helper lemmas -/

theorem flushStart_state (s : BP) :
    (flushStart s).1 = s ∨
    (flushStart s).1 = { s with isProcessing := true, inflight := some s.pendingNotes } := by
  unfold flushStart
  split
  · exact Or.inl rfl
  · split
    · exact Or.inl rfl
    · exact Or.inr rfl

theorem flushStart_pendingNotes (s : BP) :
    (flushStart s).1.pendingNotes = s.pendingNotes := by
  rcases flushStart_state s with h | h <;> rw [h]

theorem flushStart_processedNoteIds (s : BP) :
    (flushStart s).1.processedNoteIds = s.processedNoteIds := by
  rcases flushStart_state s with h | h <;> rw [h]

theorem flushStart_lastBakeTime (s : BP) :
    (flushStart s).1.lastBakeTime = s.lastBakeTime := by
  rcases flushStart_state s with h | h <;> rw [h]

theorem flushEnd_const (s : BP) (b : Bool) (now : Nat) :
    (flushEnd s b now).processedNoteIds = s.processedNoteIds ∧
    (flushEnd s b now).lastBakeTime = s.lastBakeTime ∧
    (flushEnd s b now).activeBakeRequests = s.activeBakeRequests := by
  unfold flushEnd
  split
  · exact ⟨rfl, rfl, rfl⟩
  · split <;> exact ⟨rfl, rfl, rfl⟩

theorem processBatchRun_lastBakeTime (s : BP) (b : Bool) (now : Nat) :
    (processBatchRun s b now).lastBakeTime = s.lastBakeTime := by
  unfold processBatchRun
  split
  case _ s1 heq =>
    have h1 : s1 = (flushStart s).1 := by rw [heq]
    rw [(flushEnd_const s1 b now).2.1, h1, flushStart_lastBakeTime]
  case _ s1 r hne heq =>
    have h1 : s1 = (flushStart s).1 := by rw [heq]
    rw [h1, flushStart_lastBakeTime]

/-! ## Claims -/

/-- C2. Flush mutual exclusion and empty-queue no-op: a `processBatch` call
on an empty queue, or while `isProcessing` is set, returns immediately with
the state unchanged and initiates no transmission; and after a flush has
started (the only branch that reaches `sendBatchWithRetry`), a second
immediate call observes the guard, returns with the state unchanged and
initiates no transmission — so two calls in immediate succession while the
first is pending produce exactly one transmission. -/
theorem c2_flush_mutual_exclusion :
    (∀ s : BP, s.pendingNotes.length = 0 →
      flushStart s = (s, StartRes.noPending) ∧ initiatesSend (flushStart s).2 = false) ∧
    (∀ s : BP, s.isProcessing = true → s.pendingNotes.length ≠ 0 →
      flushStart s = (s, StartRes.busy) ∧ initiatesSend (flushStart s).2 = false) ∧
    (∀ s : BP, s.isProcessing = false → s.pendingNotes.length ≠ 0 →
      initiatesSend (flushStart s).2 = true ∧
      flushStart (flushStart s).1 = ((flushStart s).1, StartRes.busy) ∧
      initiatesSend (flushStart (flushStart s).1).2 = false) := by
  refine ⟨?_, ?_, ?_⟩
  · intro s h
    have hE : flushStart s = (s, StartRes.noPending) := by
      unfold flushStart; simp [h]
    exact ⟨hE, by rw [hE]; rfl⟩
  · intro s h1 h2
    have hE : flushStart s = (s, StartRes.busy) := by
      unfold flushStart; simp [h1, h2]
    exact ⟨hE, by rw [hE]; rfl⟩
  · intro s h1 h2
    have hE : flushStart s =
        ({ s with isProcessing := true, inflight := some s.pendingNotes }, StartRes.started) := by
      unfold flushStart; simp [h1, h2]
    have hE2 : flushStart (flushStart s).1 = ((flushStart s).1, StartRes.busy) := by
      rw [hE]
      unfold flushStart
      simp [h2]
    exact ⟨by rw [hE]; rfl, hE2, by rw [hE2]; rfl⟩

/-- Witness for C2 at a concrete one-note state. -/
theorem c2_flush_mutual_exclusion_witness :
    initiatesSend (flushStart oneNoteState).2 = true ∧
    flushStart (flushStart oneNoteState).1 = ((flushStart oneNoteState).1, StartRes.busy) :=
  ⟨(c2_flush_mutual_exclusion.2.2 oneNoteState (by decide) (by decide)).1,
   (c2_flush_mutual_exclusion.2.2 oneNoteState (by decide) (by decide)).2.1⟩

/-- C3. Retry cap and uniform retry policy: for every behavior of the
endpoint in which all attempts fail — whatever mixture of transport errors,
timeouts and non-2xx statuses of any class — `sendBatchWithRetry` starting
at attempt 1 issues exactly `maxRetries = 3` fetch attempts, waits the
fixed `retryDelay = 1000` ms between consecutive attempts (two equal,
non-growing delays), and resolves to a `success := false` result rather
than rejecting. -/
theorem c3_retry_cap (oracle : Nat → HttpOutcome)
    (hfail : ∀ k, isOk (oracle k) = false) :
    sendBatchWithRetry oracle 1 =
      { success := false, attempts := maxRetries, delays := [retryDelay, retryDelay] } := by
  simp [sendBatchWithRetry, maxRetries, retryDelay, sendRetryGo, hfail]

/-- Witness for C3: an endpoint failing every attempt with a transport
error. -/
theorem c3_retry_cap_witness :
    sendBatchWithRetry (fun _ => HttpOutcome.transportError) 1 =
      { success := false, attempts := maxRetries, delays := [retryDelay, retryDelay] } :=
  c3_retry_cap (fun _ => HttpOutcome.transportError) (fun _ => rfl)

/-- C4. Flush failure atomicity: when the in-flight flush resolves with
failure (retries exhausted), the queue — which contains every snapshotted
note — is left exactly as it was (no note dropped), `serverConnected` is
set to `false`, and for both outcomes the `finally` path clears
`isProcessing`. -/
theorem c4_flush_failure_atomicity (s : BP) (snap : List Note) (now : Nat)
    (h : s.inflight = some snap) :
    (flushEnd s false now).pendingNotes = s.pendingNotes ∧
    (flushEnd s false now).serverConnected = false ∧
    (∀ b : Bool, (flushEnd s b now).isProcessing = false) := by
  refine ⟨?_, ?_, ?_⟩
  · simp [flushEnd, h]
  · simp [flushEnd, h]
  · intro b; cases b <;> simp [flushEnd, h]

/-- Witness for C4 at a concrete in-flight state. -/
theorem c4_flush_failure_atomicity_witness :
    (flushEnd inflightState false 5).pendingNotes = [w1] ∧
    (flushEnd inflightState false 5).serverConnected = false :=
  ⟨(c4_flush_failure_atomicity inflightState [w1] 5 rfl).1,
   (c4_flush_failure_atomicity inflightState [w1] 5 rfl).2.1⟩

theorem fingerprints_append (l : List Note) (n : Note) :
    fingerprints (l ++ [n]) = fingerprints l ++ [hashContent n.content] := by
  simp [fingerprints]

theorem nodup_fingerprints_append (l : List Note) (n : Note)
    (hl : (fingerprints l).Nodup)
    (hn : l.any (fun m => hashContent m.content == hashContent n.content) = false) :
    (fingerprints (l ++ [n])).Nodup := by
  have hn2 : ∀ m ∈ l, hashContent m.content ≠ hashContent n.content := by
    intro m hm
    have := List.any_eq_false.mp hn m hm
    simpa using this
  rw [fingerprints_append]
  refine List.Nodup.append hl (List.nodup_singleton _) ?_
  intro a ha hb
  rw [List.mem_singleton] at hb
  subst hb
  rcases List.mem_map.mp ha with ⟨m, hm, hEq⟩
  exact hn2 m hm hEq

theorem triggerFlush_pendingNotes (s : BP) :
    (triggerFlush s).pendingNotes = s.pendingNotes := by
  unfold triggerFlush
  split
  · exact flushStart_pendingNotes s
  · rfl

theorem triggerFlush_processedNoteIds (s : BP) :
    (triggerFlush s).processedNoteIds = s.processedNoteIds := by
  unfold triggerFlush
  split
  · exact flushStart_processedNoteIds s
  · rfl

theorem addNote_nodup (s : BP) (n : NoteInput)
    (h : (fingerprints s.pendingNotes).Nodup) :
    (fingerprints (addNote s n).pendingNotes).Nodup := by
  unfold addNote
  split_ifs with h1 h2
  · exact h
  · exact h
  · rw [triggerFlush_pendingNotes]
    exact nodup_fingerprints_append _ _ h (by simpa using h2)

theorem foldl_addNote_nodup (ops : List NoteInput) :
    ∀ s : BP, (fingerprints s.pendingNotes).Nodup →
      (fingerprints ((ops.foldl addNote s)).pendingNotes).Nodup := by
  induction ops with
  | nil => intro s h; simpa using h
  | cons n ops ih =>
    intro s h
    simpa using ih (addNote s n) (addNote_nodup s n h)

/-- C1. Dedup invariant of enqueue: after any sequence of `addNote` calls
on a fresh processor, no two notes in `pendingNotes` have the same content
fingerprint; an `addNote` whose derived id is already in the seen-set is a
no-op on the queue (same list, hence same size) and on the seen-set itself;
and removing notes from the queue (`flushEnd`) never removes ids from the
seen-set, so the id-based rejection also applies to notes already flushed
out of the queue. -/
theorem c1_dedup_invariant :
    (∀ ops : List NoteInput,
      (fingerprints ((ops.foldl addNote initBP)).pendingNotes).Nodup) ∧
    (∀ (s : BP) (n : NoteInput), s.processedNoteIds.contains (noteIdOf s n).1 = true →
      (addNote s n).pendingNotes = s.pendingNotes ∧
      (addNote s n).pendingNotes.length = s.pendingNotes.length ∧
      (addNote s n).processedNoteIds = s.processedNoteIds) ∧
    (∀ (s : BP) (b : Bool) (now : Nat),
      (flushEnd s b now).processedNoteIds = s.processedNoteIds) := by
  refine ⟨?_, ?_, ?_⟩
  · intro ops
    exact foldl_addNote_nodup ops initBP (by simp [initBP, fingerprints])
  · intro s n h
    unfold addNote
    split_ifs
    exact ⟨rfl, rfl, rfl⟩
  · intro s b now
    exact (flushEnd_const s b now).1

/-- Witness for C1: two same-content notes collapse to one queue entry, and
re-adding a seen id leaves the queue empty. -/
theorem c1_dedup_invariant_witness :
    (fingerprints (([⟨some (NId.ext 1), none, [1]⟩,
        ⟨some (NId.ext 2), none, [1]⟩] : List NoteInput).foldl addNote initBP).pendingNotes).Nodup ∧
    (addNote { initBP with processedNoteIds := [NId.ext 5] }
        ⟨some (NId.ext 5), none, [1]⟩).pendingNotes = [] :=
  ⟨c1_dedup_invariant.1 _,
   (c1_dedup_invariant.2.1 { initBP with processedNoteIds := [NId.ext 5] }
      ⟨some (NId.ext 5), none, [1]⟩ (by decide)).1⟩

/-- C5 counterexample: with the flush of `[noteA]` in flight (snapshot
`[noteA]`), `noteB` is enqueued; the next retry attempt of the in-flight
`sendBatchWithRetry` serializes the live `pendingNotes` array — which
`batchPayload.notes` references — and that serialization contains `noteB`,
a note that was not pending when the flush started. The claim that notes
enqueued while the flush (including its retries) is in flight are not
included in the transmitted batch is therefore false. -/
theorem c5_counterexample :
    (flushStart midFlightAdd1).2 = StartRes.started ∧
    midFlightFlush.inflight = some [noteA] ∧
    noteB ∈ transmittedNotes midFlightAdd2 ∧
    noteB ∉ [noteA] := by
  decide

/-- C5 (amended). Flush snapshot semantics as the code implements them:
the attempt made at flush start serializes exactly the notes pending at
that moment (which equal the snapshot); on a successful resolution the
queue is replaced by the live queue filtered of every note matching a
snapshotted note by id or by `metadata.local_id` (where two absent
`local_id`s compare equal), `lastBatchTime` is set and
`serverConnected := true`; a note — in particular one enqueued mid-flush —
survives the removal provided it differs from every snapshotted note in
both id and `local_id`. -/
theorem c5_amended :
    (∀ s : BP, s.isProcessing = false → s.pendingNotes.length ≠ 0 →
      (flushStart s).1.inflight = some s.pendingNotes ∧
      transmittedNotes (flushStart s).1 = s.pendingNotes) ∧
    (∀ (s : BP) (snap : List Note) (now : Nat), s.inflight = some snap →
      (flushEnd s true now).pendingNotes =
        s.pendingNotes.filter (fun note => !(snap.any (fun p => noteMatches p note))) ∧
      (flushEnd s true now).lastBatchTime = some now ∧
      (flushEnd s true now).serverConnected = true ∧
      (∀ note ∈ s.pendingNotes,
        (∀ p ∈ snap, p.id ≠ note.id ∧ p.localId ≠ note.localId) →
          note ∈ (flushEnd s true now).pendingNotes)) := by
  constructor
  · intro s h1 h2
    have hE : flushStart s =
        ({ s with isProcessing := true, inflight := some s.pendingNotes }, StartRes.started) := by
      unfold flushStart; simp [h1, h2]
    exact ⟨by rw [hE], by rw [hE]; rfl⟩
  · intro s snap now h
    have hq : (flushEnd s true now).pendingNotes =
        s.pendingNotes.filter (fun note => !(snap.any (fun p => noteMatches p note))) := by
      simp [flushEnd, h]
    refine ⟨hq, by simp [flushEnd, h], by simp [flushEnd, h], ?_⟩
    intro note hmem hdiff
    rw [hq]
    refine List.mem_filter.mpr ⟨hmem, ?_⟩
    rw [Bool.not_eq_true', List.any_eq_false]
    intro p hp
    have hd := hdiff p hp
    simp [noteMatches, hd.1, hd.2]

/-- Witness for C5 (amended) at a concrete one-note state. -/
theorem c5_amended_witness :
    (flushStart oneNoteState).1.inflight = some [w1] ∧
    (flushEnd inflightState true 9).serverConnected = true :=
  ⟨(c5_amended.1 oneNoteState (by decide) (by decide)).1,
   (c5_amended.2 inflightState [w1] 9 rfl).2.2.1⟩

theorem bake_throttled_reject (s : BP) (now t : Nat) (f b : Bool)
    (h : s.lastBakeTime = some t) (h2 : now - t < bakeThrottleTime) :
    handleBakeRequest s now f b =
      (s, BakeRes.throttledErr ((bakeThrottleTime - (now - t) + 999) / 1000), 0) := by
  unfold handleBakeRequest bakeStart
  rw [h]
  simp [h2]

theorem bake_success_fields (s : BP) (now : Nat) (f : Bool)
    (h1 : s.lastBakeTime = none)
    (h2 : s.activeBakeRequests.contains (NId.gen s.ctr) = false) :
    (handleBakeRequest s now f true).2.1 = BakeRes.succeeded ∧
    (handleBakeRequest s now f true).2.2 = 1 ∧
    (handleBakeRequest s now f true).1.lastBakeTime = some now := by
  have hbs : bakeStart s now =
      ({ s with
          ctr := s.ctr + 1
          activeBakeRequests := NId.gen s.ctr :: s.activeBakeRequests },
        BakeStartRes.proceeded (NId.gen s.ctr)) := by
    unfold bakeStart bakeStartGuard
    rw [h1]
    have h2m : NId.gen s.ctr ∉ s.activeBakeRequests := by simpa using h2
    simp [h2m]
  unfold handleBakeRequest
  rw [hbs]
  exact ⟨rfl, rfl, rfl⟩

/-- C6. Bake throttling: a `handleBakeRequest` arriving less than
`bakeThrottleTime` (10 s) after `lastBakeTime` fails immediately with the
"too soon" rejection carrying the remaining whole seconds, changes no state
and makes no bake network call; and after a bake that succeeded at time
`now` (recording `lastBakeTime = now`), a second request within the window
is rejected the same way with no second network call. -/
theorem c6_bake_throttle :
    (∀ (s : BP) (now t : Nat) (f b : Bool), s.lastBakeTime = some t →
      now - t < bakeThrottleTime →
      handleBakeRequest s now f b =
        (s, BakeRes.throttledErr ((bakeThrottleTime - (now - t) + 999) / 1000), 0)) ∧
    (∀ (s : BP) (now now2 : Nat) (f f2 b2 : Bool),
      s.lastBakeTime = none →
      s.activeBakeRequests.contains (NId.gen s.ctr) = false →
      now2 - now < bakeThrottleTime →
      (handleBakeRequest s now f true).2.1 = BakeRes.succeeded ∧
      (handleBakeRequest s now f true).2.2 = 1 ∧
      handleBakeRequest (handleBakeRequest s now f true).1 now2 f2 b2 =
        ((handleBakeRequest s now f true).1,
          BakeRes.throttledErr ((bakeThrottleTime - (now2 - now) + 999) / 1000), 0)) := by
  refine ⟨fun s now t f b h h2 => bake_throttled_reject s now t f b h h2, ?_⟩
  intro s now now2 f f2 b2 h1 h2 h3
  obtain ⟨ha, hb, hc⟩ := bake_success_fields s now f h1 h2
  exact ⟨ha, hb, bake_throttled_reject _ now2 now f2 b2 hc h3⟩

/-- Witness for C6: a bake 5 s after the last one is rejected with 5 s
left; from a fresh state a bake succeeds and one 0 ms later is rejected. -/
theorem c6_bake_throttle_witness :
    handleBakeRequest staleState 5000 true true =
      (staleState, BakeRes.throttledErr 6, 0) ∧
    (handleBakeRequest initBP 0 true true).2.1 = BakeRes.succeeded ∧
    (handleBakeRequest (handleBakeRequest initBP 0 true true).1 0 true true).2.2 = 0 := by
  have hA := c6_bake_throttle.1 staleState 5000 5 true true rfl (by decide)
  have hB := c6_bake_throttle.2 initBP 0 0 true true true rfl rfl (by decide)
  refine ⟨by simpa [bakeThrottleTime] using hA, hB.1, by rw [hB.2.2]⟩

/-- C7 counterexample: from a fresh state, a first `handleBakeRequest`
passes the guard and marks `gen 0` active; while it is still active a
second, overlapping call derives the fresh id `gen 1`, finds it absent from
`activeBakeRequests`, and also proceeds to the network — two simultaneous
bake requests, which the claim says can never happen. -/
theorem c7_counterexample :
    (bakeStart initBP 0).2 = BakeStartRes.proceeded (NId.gen 0) ∧
    (bakeStart initBP 0).1.activeBakeRequests = [NId.gen 0] ∧
    (bakeStart (bakeStart initBP 0).1 0).2 = BakeStartRes.proceeded (NId.gen 1) := by
  decide

/-- C7 (amended). The single-flight guard inspects an id generated freshly
in the same call, so it never observes it as already active and never
fires: whenever the throttle does not apply, a `handleBakeRequest` proceeds
to the network even while another bake is active — two overlapping calls
both transmit. Protection against rapid repeats comes only from the
time-based throttle (armed on success). -/
theorem c7_amended (s : BP) (now now2 : Nat)
    (h1 : s.lastBakeTime = none)
    (h2 : s.activeBakeRequests.contains (NId.gen s.ctr) = false)
    (h3 : s.activeBakeRequests.contains (NId.gen (s.ctr + 1)) = false) :
    (bakeStart s now).2 = BakeStartRes.proceeded (NId.gen s.ctr) ∧
    NId.gen s.ctr ∈ (bakeStart s now).1.activeBakeRequests ∧
    (bakeStart (bakeStart s now).1 now2).2 = BakeStartRes.proceeded (NId.gen (s.ctr + 1)) := by
  have hbs : bakeStart s now =
      ({ s with
          ctr := s.ctr + 1
          activeBakeRequests := NId.gen s.ctr :: s.activeBakeRequests },
        BakeStartRes.proceeded (NId.gen s.ctr)) := by
    unfold bakeStart bakeStartGuard
    rw [h1]
    have h2m : NId.gen s.ctr ∉ s.activeBakeRequests := by simpa using h2
    simp [h2m]
  refine ⟨by rw [hbs], ?_, ?_⟩
  · rw [hbs]
    exact List.mem_cons_self _ _
  · rw [hbs]
    unfold bakeStart bakeStartGuard
    rw [h1]
    have h3m : NId.gen (s.ctr + 1) ∉ s.activeBakeRequests := by simpa using h3
    simp [h3m]

/-- Witness for C7 (amended) from the fresh state. -/
theorem c7_amended_witness :
    NId.gen 0 ∈ (bakeStart initBP 3).1.activeBakeRequests ∧
    (bakeStart (bakeStart initBP 3).1 4).2 = BakeStartRes.proceeded (NId.gen 1) :=
  ⟨(c7_amended initBP 3 4 rfl rfl rfl).2.1, (c7_amended initBP 3 4 rfl rfl rfl).2.2⟩

/-- C8 counterexample: with the durable store pre-populated with 3 pending
notes, constructing a fresh engine and calling `start()`
(`initializeBatchProcessor`) leaves `getStatus().pendingCount` at 0, not 3:
no code path reads the stored notes back into `pendingNotes`. -/
theorem c8_counterexample :
    ¬ (getStatus (initBatchProcessor sampleStore)).pendingCount = 3 := by
  decide

/-- C8 (amended). There is no recovery path: `start()` performs no read of
durable storage, so a fresh engine after restart begins with an empty
queue and `getStatus().pendingCount = 0` whatever the durable store
holds. -/
theorem c8_amended (store : List (NId × Note)) :
    initBatchProcessor store = initBP ∧
    (getStatus (initBatchProcessor store)).pendingCount = 0 :=
  ⟨rfl, rfl⟩

/-- C9 counterexample: `reset()` on a state with `lastBakeTime = some 5`
and `lastHealthCheck = some 7` clears neither, refuting the claim that all
timestamps are cleared. -/
theorem c9_counterexample :
    ¬ ((reset staleState).lastBakeTime = none ∧
       (reset staleState).lastHealthCheck = none) := by
  decide

/-- C9 (amended). `reset()` empties `pendingQueue` (so
`getStatus().pendingCount = 0`), clears `lastBatchTime` and
`isProcessing`, and clears the badge — but leaves `lastHealthCheck` and
`lastBakeTime` untouched. -/
theorem c9_amended (s : BP) :
    (reset s).pendingNotes = [] ∧
    (reset s).lastBatchTime = none ∧
    (reset s).isProcessing = false ∧
    (getStatus (reset s)).pendingCount = 0 ∧
    (reset s).lastHealthCheck = s.lastHealthCheck ∧
    (reset s).lastBakeTime = s.lastBakeTime :=
  ⟨rfl, rfl, rfl, rfl, rfl, rfl⟩

/-- C10. Id linkage broken by the persistence step: for every accepted
note, `addNote` records the derived id in the seen-set, but
`saveNoteToLocalStorage` then generates a fresh storage id and overwrites
`note.id` on the very object pushed into the queue, so the id carried by
the queued note always differs from the id recorded in the seen-set at
enqueue time. (The freshness hypotheses say the generated-id counter is
ahead of any generated id appearing in the input, which the generation
scheme guarantees.) -/
theorem c10_id_linkage (s : BP) (n : NoteInput)
    (hg1 : ∀ k, n.id = some (NId.gen k) → k < s.ctr)
    (hg2 : ∀ k, n.id = none → n.localId = some (NId.gen k) → k < s.ctr)
    (hseen : s.processedNoteIds.contains (noteIdOf s n).1 = false)
    (hdup : s.pendingNotes.any
      (fun m => hashContent m.content == hashContent n.content) = false) :
    (addNote s n).processedNoteIds = (noteIdOf s n).1 :: s.processedNoteIds ∧
    (addNote s n).pendingNotes =
      s.pendingNotes ++ [⟨NId.gen (noteIdOf s n).2, n.localId, n.content⟩] ∧
    NId.gen (noteIdOf s n).2 ≠ (noteIdOf s n).1 := by
  have hacc : addNote s n = triggerFlush (acceptNote s n) := by
    unfold addNote
    rw [hseen, hdup]
    simp
  refine ⟨by rw [hacc, triggerFlush_processedNoteIds]; rfl,
          by rw [hacc, triggerFlush_pendingNotes]; rfl, ?_⟩
  rcases hid : n.id with _ | i
  · rcases hlid : n.localId with _ | j
    · simp [noteIdOf, hid, hlid]
    · cases j with
      | ext m => simp [noteIdOf, hid, hlid]
      | gen k =>
        have hk := hg2 k hid (by rw [hlid])
        simp [noteIdOf, hid, hlid]
        omega
  · cases i with
    | ext m => simp [noteIdOf, hid]
    | gen k =>
      have hk := hg1 k (by rw [hid])
      simp [noteIdOf, hid]
      omega

/-- Witness for C10: a caller-supplied id `ext 5` lands in the seen-set
while the queued note carries the distinct storage id `gen 0`. -/
theorem c10_id_linkage_witness :
    (addNote initBP ⟨some (NId.ext 5), none, [1]⟩).processedNoteIds = [NId.ext 5] ∧
    NId.gen 0 ≠ NId.ext 5 := by
  have h := c10_id_linkage initBP ⟨some (NId.ext 5), none, [1]⟩
    (fun k hk => absurd (Option.some.inj hk) (fun hh => NId.noConfusion hh))
    (fun k hk _ => Option.noConfusion hk)
    rfl rfl
  exact ⟨h.1, h.2.2⟩

end BrowserBud
